import Mathlib

/-!
Shallow embedding of the structural-feature placement engine of the
`ideal_learning_env` package (file `structural_object_service.py`):
the ramp-attachment geometry (`_get_attached_ramp`, `_get_lip_gap`,
`_get_under_platform_position_scale`), the thrower stop-position force
resolution (`__use_stop_position_config`), the held-object lookup
(`_get_existing_held_object_idl`), failure cleanup, and the wall
proximity check (`is_wall_too_close`).

Numeric values are modelled over `ℚ` (with explicit embeddings of
The Python `round` function and `%`); angle statements use `Real.arctan` at the
theorem level.  Randomized samples (`random.uniform`, `random.shuffle`,
`random.choice`, `MinMaxFloat.convert_value`) are modelled as explicit
parameters constrained to the sampled ranges, so theorems quantify over
every possible draw.
-/

namespace MCS

/-- Python `round` to an integer: round half to even (bankers rounding). -/
def roundHalfEven (x : ℚ) : ℤ :=
  let f : ℤ := ⌊x⌋
  let r : ℚ := x - f
  if r < 1/2 then f
  else if 1/2 < r then f + 1
  else if f % 2 = 0 then f else f + 1

/-- Python `round(x, n)` over `ℚ`. -/
def pyround (x : ℚ) (n : ℕ) : ℚ := (roundHalfEven (x * 10 ^ n) : ℚ) / 10 ^ n

/-- Python `a % b` over `ℚ`, for a positive modulus `b` (result in `[0, b)`). -/
def pymod (a b : ℚ) : ℚ := a - b * ⌊a / b⌋

/-! ### Constants (`structural_object_service.py` lines 163-183) -/

def ATTACHED_RAMP_MIN_WIDTH : ℚ := 0.5
def ATTACHED_RAMP_MAX_WIDTH : ℚ := 1.5
def ATTACHED_RAMP_MAX_LENGTH : ℚ := 3
def ATTACHED_RAMP_MIN_LENGTH : ℚ := 0.5

/-- Modelled from the spec: the half-width of the performer agent, a constant
of the external `geometry` collaborator module (not under `src/`);
the spec only calls it the performer width, every claim uses it symbolically. -/
def PERFORMER_HALF_WIDTH : ℚ := 0.27

/-- Modelled from the spec: the width of the performer agent, from the external
`geometry` collaborator module (twice the half-width). -/
def PERFORMER_WIDTH : ℚ := PERFORMER_HALF_WIDTH * 2

def BOTTOM_PLATFORM_SCALE_BUFFER_MIN : ℚ := PERFORMER_WIDTH
def BOTTOM_PLATFORM_SCALE_BUFFER_MAX : ℚ := 5

/-- `RAMP_ROTATIONS = (90, 180, -90, 0)` (line 183): per-edge rotation offset
added to the platform rotation for an attached ramp. -/
def RAMP_ROTATIONS : Fin 4 → ℚ
  | 0 => 90
  | 1 => 180
  | 2 => -90
  | 3 => 0

/-! ### Ramp attachment: `_get_attached_ramp` (lines 4491-4628)

The function is always called with `max_angle = 45` (lines 4252 and 4290),
so the embedding specializes the angle arithmetic to that value:
the acceptance test of the source
`angle_needed <= max_angle and angle_needed >= 0` with
`angle_needed = degrees(atan(psy / max_ramp_length))`, and its
`min_ramp_length = round(psy / tan(radians(max_angle)), 4)`, use
`tan(radians 45) = 1`; the tangent-level form is proved equivalent to the
arctan form in `angle_needed_le_iff` below. -/

def performer_buffer : ℚ := PERFORMER_HALF_WIDTH * 2

/-- `max_ramp_length = min(available_lengths[edge] - performer_buffer,
ATTACHED_RAMP_MAX_LENGTH)` (lines 4525-4528). -/
def maxRampLength (available : ℚ) : ℚ :=
  min (available - performer_buffer) ATTACHED_RAMP_MAX_LENGTH

/-- `min_ramp_length = max(round(psy / tan(radians(45)), 4),
ATTACHED_RAMP_MIN_LENGTH)` (lines 4531-4532), with `tan(radians 45) = 1`. -/
def minRampLength45 (psy : ℚ) : ℚ :=
  max (pyround psy 4) ATTACHED_RAMP_MIN_LENGTH

/-- `ramp_width_max = min(ATTACHED_RAMP_MAX_WIDTH, psz if edge % 2 == 0 else
psx)` (lines 4538-4541). -/
def rampWidthMax (psx psz : ℚ) (edge : Fin 4) : ℚ :=
  min ATTACHED_RAMP_MAX_WIDTH (if edge.val % 2 = 0 then psz else psx)

/-- The length of the platform edge a ramp attaches to: edges 0 and 2 (the
`-x` and `+x` edges) run along the z axis, edges 1 and 3 along the x axis. -/
def edgeLength (psx psz : ℚ) (edge : Fin 4) : ℚ :=
  if edge.val % 2 = 0 then psz else psx

/-- Edge acceptance (lines 4529-4544) at `max_angle = 45`: the
`max_ramp_length <= 0: continue` guard, the angle test written at the
tangent level (`psy ≤ max_ramp_length ∧ 0 ≤ psy` for
`angle_needed ≤ 45 ∧ 0 ≤ angle_needed`), the
`max_ramp_length > min_ramp_length` test and the width feasibility test. -/
def edgeValid45 (psx psy psz available : ℚ) (edge : Fin 4) : Bool :=
  decide (0 < maxRampLength available ∧
    (psy ≤ maxRampLength available ∧ 0 ≤ psy) ∧
    minRampLength45 psy < maxRampLength available ∧
    ATTACHED_RAMP_MIN_WIDTH ≤ rampWidthMax psx psz edge)

/-- Chosen edge list (lines 4508-4515): without `long_with_two_ramps` the four
edges in a shuffled order (the shuffle is passed in as the already-permuted
list); with a `short_scale_long_with_two_ramps` marker a fixed single edge. -/
def edgeChoices (shortScale : Option String) (shuffled : List (Fin 4)) :
    List (Fin 4) :=
  match shortScale with
  | none => shuffled
  | some s =>
    if s = "x-" then [0] else if s = "x+" then [2]
    else if s = "z-" then [3] else [1]

/-- `short_scales` (lines 4238-4239 and 4269-4270): the list of the two
markers `x-, x+` when `scale.x < scale.z`, else `z-, z+`. -/
def shortScales (sx sz : ℚ) : List String :=
  if sx < sz then ["x-", "x+"] else ["z-", "z+"]

/-- `ramps_to_add` (lines 4231-4236): `attached_ramps` if configured, but
forced to exactly 2 by `long_with_two_ramps`. -/
def rampsToAdd (attached : ℕ) (longWithTwoRamps : Bool) : ℕ :=
  if longWithTwoRamps then 2 else attached

/-- The position transform applied to the ramp (lines 4608-4612), with the
cosine and sine of the platform rotation passed as arguments:
`rpx = (x0 - xc) cos - (z0 - zc) sin + xc` and
`rpz = -(x0 - xc) sin - (z0 - zc) cos + zc`. -/
def rampRotatedPos {R : Type} [CommRing R] (x0 z0 xc zc c s : R) : R × R :=
  ((x0 - xc) * c - (z0 - zc) * s + xc, -(x0 - xc) * s - (z0 - zc) * c + zc)

/-- The standard 2-D rotation-about-a-point transform exactly as the spec
(and the source comment at lines 4591-4593) words it:
`x1 = (x0 - xc) cos - (z0 - zc) sin + xc`,
`z1 = (x0 - xc) sin + (z0 - zc) cos + zc`.  Declared only to be compared
with `rampRotatedPos`, the transform the code actually applies. -/
def specStandardRotatedPos {R : Type} [CommRing R] (x0 z0 xc zc c s : R) :
    R × R :=
  ((x0 - xc) * c - (z0 - zc) * s + xc, (x0 - xc) * s + (z0 - zc) * c + zc)

/-- `rot = (rot + rot_add) % 360` with `rot_add = RAMP_ROTATIONS[edge]`
(lines 4563 and 4616). -/
def rampAssignedRotation (rotationY : ℚ) (edge : Fin 4) : ℚ :=
  pymod (rotationY + RAMP_ROTATIONS edge) 360

/-! Per-edge pre-rotation sampling limits (lines 4577-4589). -/

def xLimitOut (psx rsz : ℚ) : ℚ := psx * 0.5 + 0.5 * rsz
def xLimitIn (psx rsx : ℚ) : ℚ := psx * 0.5 - 0.5 * rsx
def zLimitOut (psz rsz : ℚ) : ℚ := psz * 0.5 + 0.5 * rsz
def zLimitIn (psz rsx : ℚ) : ℚ := psz * 0.5 - 0.5 * rsx

def nonRotXMin (psx rsx rsz : ℚ) : Fin 4 → ℚ
  | 0 => -xLimitOut psx rsz
  | 1 => -xLimitIn psx rsx
  | 2 => xLimitOut psx rsz
  | 3 => -xLimitIn psx rsx

def nonRotXMax (psx rsx rsz : ℚ) : Fin 4 → ℚ
  | 0 => -xLimitOut psx rsz
  | 1 => xLimitIn psx rsx
  | 2 => xLimitOut psx rsz
  | 3 => xLimitIn psx rsx

def nonRotZMin (psz rsx rsz : ℚ) : Fin 4 → ℚ
  | 0 => -zLimitIn psz rsx
  | 1 => -zLimitOut psz rsz
  | 2 => -zLimitIn psz rsx
  | 3 => zLimitOut psz rsz

def nonRotZMax (psz rsx rsz : ℚ) : Fin 4 → ℚ
  | 0 => zLimitIn psz rsx
  | 1 => -zLimitOut psz rsz
  | 2 => zLimitIn psz rsx
  | 3 => zLimitOut psz rsz

/-! ### Lip gaps: `_get_lip_gap` (lines 4631-4645) -/

structure Gap where
  side : String
  low : ℚ
  high : ℚ
deriving DecidableEq

/-- The side name list indexed by edge (line 4636): left, back, right,
front. -/
def gapSide : Fin 4 → String
  | 0 => "left"
  | 1 => "back"
  | 2 => "right"
  | 3 => "front"

/-- `_get_lip_gap(ramp_pos, ramp_scale, plat_pos, plat_scale, edge)`:
fractional interval along the edge, with the direction reversed for the
left and right edges (`edge % 2 == 0`).  `plat_pos` is passed by the caller
but, as the source comment notes, never used in the computation. -/
def getLipGap (ramp_pos ramp_scale plat_pos plat_scale : ℚ) (edge : Fin 4) :
    Gap :=
  let high := (ramp_pos + ramp_scale * 0.5 + plat_scale * 0.5) / plat_scale
  let low := (ramp_pos - ramp_scale * 0.5 + plat_scale * 0.5) / plat_scale
  if edge.val % 2 = 0 then
    { side := gapSide edge, low := 1 - high, high := 1 - low }
  else
    { side := gapSide edge, low := low, high := high }

/-- Two gap intervals overlap on a common edge: their closed `[low, high]`
intervals share a segment of positive length. -/
def gapsOverlap (g1 g2 : Gap) : Prop :=
  g2.low < g1.high ∧ g1.low < g2.high

/-- Pre-rotation x-extent of the footprint of an attached ramp: on the
left/right edges the ramp length (`rsz`, its local z scale, rotated by ±90) lies along
x; on the back/front edges its width (`rsx`) does. -/
def rampFootprintX (edge : Fin 4) (relx rsx rsz : ℚ) : ℚ × ℚ :=
  if edge.val % 2 = 0 then (relx - rsz * 0.5, relx + rsz * 0.5)
  else (relx - rsx * 0.5, relx + rsx * 0.5)

/-- Pre-rotation z-extent of the footprint of an attached ramp (see
`rampFootprintX`). -/
def rampFootprintZ (edge : Fin 4) (relz rsx rsz : ℚ) : ℚ × ℚ :=
  if edge.val % 2 = 0 then (relz - rsx * 0.5, relz + rsx * 0.5)
  else (relz - rsz * 0.5, relz + rsz * 0.5)

/-- Two closed spans share a segment of positive length. -/
def spansOverlap (s1 s2 : ℚ × ℚ) : Prop :=
  s2.1 < s1.2 ∧ s1.1 < s2.2

/-- The gap recorded for an attached ramp (lines 4597-4603): on the left or
right edges (`edge % 2 == 0`) the gap is computed from the relative z
coordinate of the ramp against the z scale of the platform, otherwise from its relative x
coordinate against the x scale; the ramp width is always `rsx`. -/
def attachedRampGap (edge : Fin 4) (relx relz rsx ppx ppz psx psz : ℚ) :
    Gap :=
  if edge.val % 2 = 0 then getLipGap relz rsx ppz psz edge
  else getLipGap relx rsx ppx psx edge

/-- The pre-rotation footprints of two attached ramps overlap (share an open
rectangle). -/
def footprintsOverlap (edge : Fin 4) (relx1 relz1 rsx1 rsz1
    relx2 relz2 rsx2 rsz2 : ℚ) : Prop :=
  spansOverlap (rampFootprintX edge relx1 rsx1 rsz1)
      (rampFootprintX edge relx2 rsx2 rsz2) ∧
  spansOverlap (rampFootprintZ edge relz1 rsx1 rsz1)
      (rampFootprintZ edge relz2 rsx2 rsz2)

/-! ### Platform underneath: `_get_under_platform_position_scale`
(lines 4412-4464) -/

/-- `scale_min_buffer = max(top_scale.y + BOTTOM_PLATFORM_SCALE_BUFFER_MIN,
top_scale.y * 2)` (lines 4420-4423). -/
def scaleMinBuffer (topY : ℚ) : ℚ :=
  max (topY + BOTTOM_PLATFORM_SCALE_BUFFER_MIN) (topY * 2)

/-- `scale_max_buffer = min(max_room_dim - geometry.PERFORMER_WIDTH -
min(top_scale.x, top_scale.z), top_scale.y +
BOTTOM_PLATFORM_SCALE_BUFFER_MAX)` (lines 4424-4428). -/
def scaleMaxBuffer (topX topZ topY maxRoomDim : ℚ) : ℚ :=
  min (maxRoomDim - PERFORMER_WIDTH - min topX topZ)
    (topY + BOTTOM_PLATFORM_SCALE_BUFFER_MAX)

/-- `_get_pre_rotate_under_position` (lines 4456-4464): the closed range of
positions in one dimension keeping the top platform inside the bottom one;
the function returns `random.uniform` over this pair. -/
def preRotateUnderPosRange (topPos topDim botDim : ℚ) : ℚ × ℚ :=
  (topPos + topDim * 0.5 - botDim * 0.5, topPos - topDim * 0.5 + botDim * 0.5)

/-! ### Thrower stop-position force solving:
`StructuralThrowerCreationService.__use_stop_position_config`
(lines 1249-1314) -/

/-- One record of the external movement catalog (`TOSS_MOVE_LIST` /
`BASE_MOVE_LIST`): its `xDistanceByStep` sequence and its forces. -/
structure MoveData where
  xDistanceByStep : List ℚ
  forceX : ℚ
  forceY : ℚ
deriving DecidableEq

instance : Inhabited MoveData := ⟨⟨[], 0, 0⟩⟩

/-- `move_distance = distance_by_step[-1] - distance_by_step[0]`
(lines 1257-1258). -/
def moveDistance (m : MoveData) : ℚ :=
  m.xDistanceByStep.getLastD 0 - m.xDistanceByStep.headD 0

/-- Python `math.isclose(a, b, rel_tol, abs_tol)`. -/
def pyIsClose (a b relTol absTol : ℚ) : Prop :=
  |a - b| ≤ max (relTol * max |a| |b|) absTol

instance (a b relTol absTol : ℚ) : Decidable (pyIsClose a b relTol absTol) := by
  unfold pyIsClose; infer_instance

/-- The predicate deciding whether a catalog move matches the required
distance (lines 1260-1272): for offscreen stop positions the catalog
distance plus 0.1 only has to reach the required distance; otherwise
`math.isclose(move_distance, required_distance, rel_tol=0.1, abs_tol=0.1)`. -/
def moveMatches (offscreen : Bool) (required : ℚ) (m : MoveData) : Bool :=
  if offscreen then decide (required ≤ moveDistance m + 0.1)
  else decide (pyIsClose (moveDistance m) required 0.1 0.1)

/-- `valid_moves` (lines 1252-1272). -/
def validMoves (offscreen : Bool) (required : ℚ) (moves : List MoveData) :
    List MoveData :=
  moves.filter (moveMatches offscreen required)

/-- `all_distances` (lines 1253-1259): every catalog distance rounded to one
decimal digit. -/
def allDistances (moves : List MoveData) : List ℚ :=
  moves.map (fun m => pyround (moveDistance m) 1)

/-- Python `sorted(set(xs))` (line 1304). -/
def sortedSet (xs : List ℚ) : List ℚ :=
  xs.dedup.insertionSort (· ≤ ·)

/-- `moves = TOSS_MOVE_LIST if reconciled.height == 1 else BASE_MOVE_LIST`
(line 1251). -/
def selectMoveList (height : ℤ) (toss base : List MoveData) : List MoveData :=
  if height = 1 then toss else base

/-- Outcome of the force resolution (lines 1277-1314): a chosen force, the
hard configuration error naming the required distance and the sorted set of
available distances, or (only with the `behind` modifier) the move-back
retry. -/
inductive StopOutcome where
  | force (forceX forceY : ℚ)
  | configError (required : ℚ) (available : List ℚ)
  | retryBehind
deriving DecidableEq

/-- The final part of `__use_stop_position_config` (lines 1249-1314), with
`random.choice(valid_moves)` modelled by an arbitrary index `choice`. -/
def useStopPositionForce (offscreen behind : Bool) (required : ℚ)
    (moves : List MoveData) (choice : ℕ) : StopOutcome :=
  let valid := validMoves offscreen required moves
  if valid.isEmpty then
    if behind then .retryBehind
    else .configError required (sortedSet (allDistances moves))
  else
    let m := valid.getD (choice % valid.length) default
    .force m.forceX m.forceY

/-! ### Held-object lookup: `_get_existing_held_object_idl`
(lines 4846-4895) -/

/-- Modelled from the spec: `TARGET_LABEL`, the label of the goal
target object, imported from an external collaborator module (not under
`src/`); its concrete string is opaque to every claim. -/
def TARGET_LABEL : String := "target"

/-- The per-object state `_get_existing_held_object_idl` inspects: the
`debug` final-position flag and the `positionedBy` marker. -/
structure HeldIdl where
  id : String
  finalPosition : Bool
  positionedBy : Option String
deriving DecidableEq

/-- The object repository restricted to what the lookup reads: an
association list from label to the labeled objects (`has_label` is
membership, `get_all_from_labeled_objects` the stored list).  The source
shuffles the label list and each object list; the embedding quantifies over
arbitrary orders instead. -/
abbrev HeldRepo := List (String × List HeldIdl)

/-- The inner acceptance test (lines 4863-4881): an object already given a
final position is reused only by a place-or-pickup placer when it was not
positioned by a mechanism. -/
def acceptHeldIdl (placeOrPickup : Bool) (idl : HeldIdl) : Bool :=
  if idl.finalPosition then
    decide (idl.positionedBy ≠ some "mechanism") && placeOrPickup
  else true

/-- First accepted object of the list of one label. -/
def firstAcceptedIdl (placeOrPickup : Bool) : List HeldIdl → Option HeldIdl
  | [] => none
  | idl :: rest =>
    if acceptHeldIdl placeOrPickup idl then some idl
    else firstAcceptedIdl placeOrPickup rest

/-- The label loop (lines 4856-4881), also accumulating `idl_count`. -/
def heldSearch (repo : HeldRepo) (placeOrPickup : Bool) :
    List String → ℕ → Option HeldIdl × ℕ
  | [], count => (none, count)
  | label :: rest, count =>
    match repo.lookup label with
    | none => heldSearch repo placeOrPickup rest count
    | some idls =>
      match firstAcceptedIdl placeOrPickup idls with
      | some idl => (some idl, count + idls.length)
      | none => heldSearch repo placeOrPickup rest (count + idls.length)

/-- Result of `_get_existing_held_object_idl`: an object, `None`, or the
`ILEDelayException` (with the `idl_count` its message reports). -/
inductive HeldResult where
  | found (idl : HeldIdl)
  | notFound
  | delayError (idlCount : ℕ)
deriving DecidableEq

/-- `_get_existing_held_object_idl(labels, place_or_pickup,
existing_object_required)` (lines 4846-4895), over the wrapped label list
(`labels if isinstance(labels, list) else [labels]`). -/
def getExistingHeldObjectIdl (repo : HeldRepo) (labels : List String)
    (placeOrPickup existingObjectRequired : Bool) : HeldResult :=
  match heldSearch repo placeOrPickup labels 0 with
  | (some idl, _) => .found idl
  | (none, count) =>
    if existingObjectRequired || labels = [TARGET_LABEL] then
      .delayError count
    else .notFound

/-- The condition under which `_handle_dependent_defaults` creates a brand
new object carrying the requested labels (line 2205:
`if not self.object_idl and not reconciled.empty_placer`). -/
def placerCreatesNewObject (result : HeldResult) (emptyPlacer : Bool) : Bool :=
  (result = HeldResult.notFound) && !emptyPlacer

/-! ### Failure cleanup (lines 1351-1368 and 1898-1902) -/

/-- A scene object as far as the cleanup code inspects it. -/
structure SceneInstance where
  id : String
deriving DecidableEq

/-- The scene filtering in the exception handler of `_do_post_add`
(lines 1363-1367): keep the instances whose id is neither the target id nor
the thrower id. -/
def removeFailedThrowerObjects (objects : List SceneInstance)
    (targetId throwerId : String) : List SceneInstance :=
  objects.filter (fun o => decide (o.id ∉ [targetId, throwerId]))

/-- `_do_post_add` for a thrower with a stop position (lines 1351-1368):
if the force solving fails, the thrower and its target are removed from the
scene object list and the exception propagates; otherwise the objects stay
and the solved forces are used. -/
def throwerPostAdd (objects : List SceneInstance) (targetId throwerId : String)
    (solved : Except String (ℚ × ℚ)) :
    Except (String × List SceneInstance) (List SceneInstance × ℚ × ℚ) :=
  match solved with
  | .error e => .error (e, removeFailedThrowerObjects objects targetId throwerId)
  | .ok f => .ok (objects, f)

/-- The final-position markers a placer sets on its held object. -/
structure HeldMarkers where
  positionedBy : Option String
  finalPosition : Option Bool
deriving DecidableEq

/-- `_cleanup_on_failure` (lines 1898-1902): both markers are reset to
`None`. -/
def cleanupOnFailure (_markers : HeldMarkers) : HeldMarkers :=
  { positionedBy := none, finalPosition := none }

/-! ### Wall proximity: `is_wall_too_close` (lines 4951-4991) and
`StructuralWallCreationService.is_valid` (lines 411-419) -/

/-- A wall as `is_wall_too_close` reads it: x/z position, y rotation and
x/z scale (`scale.x` the width, `scale.z` the thickness). -/
structure WallObj where
  posX : ℚ
  posZ : ℚ
  rotY : ℚ
  scaleX : ℚ
  scaleZ : ℚ
deriving DecidableEq

/-- `rotation % 180 == 0` on the rounded rotation: the wall runs along the
x axis. -/
def wallIsHorizontal (w : WallObj) : Bool :=
  decide (pymod (pyround w.rotY 2) 180 = 0)

/-- `rotation % 90 == 0` on the rounded rotation: the wall is axis-aligned. -/
def wallIsAxisAligned (w : WallObj) : Bool :=
  decide (pymod (pyround w.rotY 2) 90 = 0)

/-- The per-old-wall test inside the loop of `is_wall_too_close`
(lines 4967-4990). -/
def wallTooCloseToOld (newWall oldWall : WallObj) : Bool :=
  wallIsAxisAligned oldWall &&
  (wallIsHorizontal oldWall = wallIsHorizontal newWall) &&
  (let majorNew := if wallIsHorizontal oldWall then newWall.posZ else newWall.posX
   let majorOld := if wallIsHorizontal oldWall then oldWall.posZ else oldWall.posX
   let minorNew := if wallIsHorizontal oldWall then newWall.posX else newWall.posZ
   let minorOld := if wallIsHorizontal oldWall then oldWall.posX else oldWall.posZ
   let distanceAdjacent :=
     |minorNew - minorOld| - oldWall.scaleX / 2 - newWall.scaleX / 2
   let distanceAcross :=
     |majorNew - majorOld| - oldWall.scaleZ / 2 - newWall.scaleZ / 2
   decide (distanceAdjacent ≤ 0) && decide (distanceAcross < PERFORMER_WIDTH))

/-- `is_wall_too_close(new_wall)` over the repository list of existing
walls. -/
def isWallTooClose (newWall : WallObj) (walls : List WallObj) : Bool :=
  wallIsAxisAligned newWall && walls.any (wallTooCloseToOld newWall)

/-- `StructuralWallCreationService.is_valid` (lines 411-419): the wall is
valid only if it is not too close to an existing parallel wall and the
generic bounds validation (passed in as `superValid`) succeeds. -/
def wallIsValid (newWall : WallObj) (walls : List WallObj)
    (superValid : Bool) : Bool :=
  !isWallTooClose newWall walls && superValid

/-! ## Helper lemmas -/

theorem firstAcceptedIdl_accepts {placeOrPickup : Bool} :
    ∀ {l : List HeldIdl} {idl : HeldIdl},
      firstAcceptedIdl placeOrPickup l = some idl →
      acceptHeldIdl placeOrPickup idl = true := by
  intro l
  induction l with
  | nil => intro idl h; simp [firstAcceptedIdl] at h
  | cons a rest ih =>
    intro idl h
    by_cases ha : acceptHeldIdl placeOrPickup a = true
    · simp [firstAcceptedIdl, ha] at h
      exact h ▸ ha
    · simp [firstAcceptedIdl, ha] at h
      exact ih h

theorem heldSearch_found_accepts {repo : HeldRepo} {placeOrPickup : Bool} :
    ∀ {labels : List String} {count n : ℕ} {idl : HeldIdl},
      heldSearch repo placeOrPickup labels count = (some idl, n) →
      acceptHeldIdl placeOrPickup idl = true := by
  intro labels
  induction labels with
  | nil => intro count n idl h; simp [heldSearch] at h
  | cons label rest ih =>
    intro count n idl h
    unfold heldSearch at h
    split at h
    · exact ih h
    · split at h
      · rename_i idls _ found hfirst
        simp only [Prod.mk.injEq, Option.some.injEq] at h
        exact h.1 ▸ firstAcceptedIdl_accepts hfirst
      · exact ih h

theorem heldSearch_all_missing (repo : HeldRepo) (placeOrPickup : Bool) :
    ∀ (labels : List String) (count : ℕ),
      (∀ l ∈ labels, repo.lookup l = none) →
      heldSearch repo placeOrPickup labels count = (none, count) := by
  intro labels
  induction labels with
  | nil => intro count _; rfl
  | cons label rest ih =>
    intro count h
    unfold heldSearch
    rw [h label (by simp)]
    exact ih count fun l hl => h l (by simp [hl])

theorem gap_frac_bounds (pos w p : ℚ) (hp : 0 < p) (hw : 0 < w)
    (hlo : -(p * 0.5 - 0.5 * w) ≤ pos) (hhi : pos ≤ p * 0.5 - 0.5 * w) :
    0 ≤ (pos - w * 0.5 + p * 0.5) / p ∧
    (pos - w * 0.5 + p * 0.5) / p < (pos + w * 0.5 + p * 0.5) / p ∧
    (pos + w * 0.5 + p * 0.5) / p ≤ 1 := by
  refine ⟨div_nonneg (by linarith) hp.le, ?_, ?_⟩
  · rw [div_lt_div_right hp]; linarith
  · rw [div_le_one hp]; linarith

/-! ## Claim theorems -/

/-- C10: an object returned by `_get_existing_held_object_idl` that has
already been given a final position can only be one positioned by something
other than a mechanism, and only for a place-or-pickup caller: no object is
ever held or positioned by two mechanisms. -/
theorem held_object_mechanism_exclusivity (repo : HeldRepo)
    (labels : List String) (placeOrPickup existingObjectRequired : Bool)
    (idl : HeldIdl)
    (hfound : getExistingHeldObjectIdl repo labels placeOrPickup
      existingObjectRequired = .found idl)
    (hfinal : idl.finalPosition = true) :
    idl.positionedBy ≠ some "mechanism" ∧ placeOrPickup = true := by
  unfold getExistingHeldObjectIdl at hfound
  cases hsearch : heldSearch repo placeOrPickup labels 0 with
  | mk fst count =>
    rw [hsearch] at hfound
    cases fst with
    | none =>
      by_cases hreq : (existingObjectRequired || labels = [TARGET_LABEL]) = true <;>
        simp [hreq] at hfound
    | some found =>
      simp at hfound
      have haccept := heldSearch_found_accepts hsearch
      rw [hfound] at haccept
      unfold acceptHeldIdl at haccept
      rw [hfinal] at haccept
      simp at haccept
      exact haccept

/-- C10 witness. -/
theorem held_object_mechanism_exclusivity_witness :
    getExistingHeldObjectIdl
        [("a", [{ id := "o1", finalPosition := true,
                  positionedBy := some "keyword" }])]
        ["a"] true false =
      .found { id := "o1", finalPosition := true,
               positionedBy := some "keyword" } ∧
    (some "keyword" ≠ some "mechanism" ∧ true = true) :=
  ⟨by decide,
   held_object_mechanism_exclusivity
     [("a", [{ id := "o1", finalPosition := true,
               positionedBy := some "keyword" }])]
     ["a"] true false
     { id := "o1", finalPosition := true, positionedBy := some "keyword" }
     (by decide) (by decide)⟩

/-- C8: when the post-commit stop-position force solving fails, the thrower
and its target projectile are removed from the scene object list (every
other instance is kept) before the exception propagates, and a placer
failure clears both final-position markers on the held object. -/
theorem failed_attempt_cleanup (objects : List SceneInstance)
    (targetId throwerId : String) (e : String) (markers : HeldMarkers)
    (solved : Except String (ℚ × ℚ)) (hfail : solved = .error e) :
    throwerPostAdd objects targetId throwerId solved =
      .error (e, removeFailedThrowerObjects objects targetId throwerId) ∧
    (∀ o ∈ removeFailedThrowerObjects objects targetId throwerId,
      o.id ≠ targetId ∧ o.id ≠ throwerId) ∧
    (∀ o ∈ objects, o.id ≠ targetId → o.id ≠ throwerId →
      o ∈ removeFailedThrowerObjects objects targetId throwerId) ∧
    (∀ o ∈ removeFailedThrowerObjects objects targetId throwerId,
      o ∈ objects) ∧
    (cleanupOnFailure markers).positionedBy = none ∧
    (cleanupOnFailure markers).finalPosition = none := by
  subst hfail
  refine ⟨rfl, ?_, ?_, ?_, rfl, rfl⟩
  · intro o ho
    simp [removeFailedThrowerObjects, List.mem_filter] at ho
    exact ho.2
  · intro o ho h1 h2
    simp [removeFailedThrowerObjects, List.mem_filter]
    exact ⟨ho, h1, h2⟩
  · intro o ho
    simp [removeFailedThrowerObjects, List.mem_filter] at ho
    exact ho.1

/-- C8 witness. -/
theorem failed_attempt_cleanup_witness :
    (Except.error "boom" : Except String (ℚ × ℚ)) = .error "boom" ∧
    throwerPostAdd [⟨"t"⟩, ⟨"w"⟩, ⟨"keep"⟩] "t" "w" (.error "boom") =
      .error ("boom",
        removeFailedThrowerObjects [⟨"t"⟩, ⟨"w"⟩, ⟨"keep"⟩] "t" "w") :=
  ⟨rfl, (failed_attempt_cleanup [⟨"t"⟩, ⟨"w"⟩, ⟨"keep"⟩] "t" "w" "boom"
    ⟨some "mechanism", some true⟩ (.error "boom") rfl).1⟩

/-- C9 (amended): a new AXIS-ALIGNED wall (rounded rotation a multiple of
90) whose lateral extent overlaps that of an existing parallel axis-aligned
wall, and whose facing surface lies within one performer width of it, is
rejected by `is_wall_too_close`, so
`StructuralWallCreationService.is_valid` returns `False`; walls whose
rotation is not a multiple of 90 are exempt from the check (see
`wall_too_close_counterexample`). -/
theorem wall_too_close_invalid (newWall oldWall : WallObj)
    (walls : List WallObj) (superValid : Bool)
    (hmem : oldWall ∈ walls)
    (hnew : wallIsAxisAligned newWall = true)
    (hold : wallIsAxisAligned oldWall = true)
    (hpar : wallIsHorizontal oldWall = wallIsHorizontal newWall)
    (hlat : |(if wallIsHorizontal oldWall then newWall.posX else newWall.posZ) -
        (if wallIsHorizontal oldWall then oldWall.posX else oldWall.posZ)| -
        oldWall.scaleX / 2 - newWall.scaleX / 2 ≤ 0)
    (hacross : |(if wallIsHorizontal oldWall then newWall.posZ else newWall.posX) -
        (if wallIsHorizontal oldWall then oldWall.posZ else oldWall.posX)| -
        oldWall.scaleZ / 2 - newWall.scaleZ / 2 < PERFORMER_WIDTH) :
    isWallTooClose newWall walls = true ∧
    wallIsValid newWall walls superValid = false := by
  have hclose : wallTooCloseToOld newWall oldWall = true := by
    cases hh : wallIsHorizontal oldWall with
    | false =>
      have hn : wallIsHorizontal newWall = false := by rw [← hpar, hh]
      simp only [hh, if_neg] at hlat hacross
      simp only [wallTooCloseToOld, hold, hh, hn, Bool.true_and,
        Bool.and_eq_true, decide_eq_true_eq, if_neg, Bool.false_eq_true,
        ite_false]
      exact ⟨trivial, hlat, hacross⟩
    | true =>
      have hn : wallIsHorizontal newWall = true := by rw [← hpar, hh]
      simp only [hh, if_pos] at hlat hacross
      simp only [wallTooCloseToOld, hold, hh, hn, Bool.true_and,
        Bool.and_eq_true, decide_eq_true_eq, ite_true]
      exact ⟨trivial, hlat, hacross⟩
  have hany : walls.any (wallTooCloseToOld newWall) = true :=
    List.any_eq_true.mpr ⟨oldWall, hmem, hclose⟩
  have htoo : isWallTooClose newWall walls = true := by
    unfold isWallTooClose
    rw [hnew, hany]
    rfl
  exact ⟨htoo, by unfold wallIsValid; rw [htoo]; rfl⟩

/-- C9 witness. -/
theorem wall_too_close_invalid_witness :
    (⟨0, 0.2, 0, 2, 0.1⟩ : WallObj) ∈ [(⟨0, 0.2, 0, 2, 0.1⟩ : WallObj)] ∧
    (isWallTooClose ⟨0, 0, 0, 2, 0.1⟩ [⟨0, 0.2, 0, 2, 0.1⟩] = true ∧
      wallIsValid ⟨0, 0, 0, 2, 0.1⟩ [⟨0, 0.2, 0, 2, 0.1⟩] true = false) :=
  ⟨by simp,
   wall_too_close_invalid ⟨0, 0, 0, 2, 0.1⟩ ⟨0, 0.2, 0, 2, 0.1⟩
     [⟨0, 0.2, 0, 2, 0.1⟩] true (by simp)
     (by norm_num [wallIsAxisAligned, pymod, pyround, roundHalfEven])
     (by norm_num [wallIsAxisAligned, pymod, pyround, roundHalfEven])
     (by norm_num [wallIsHorizontal, pymod, pyround, roundHalfEven])
     (by norm_num [wallIsHorizontal, pymod, pyround, roundHalfEven])
     (by norm_num [wallIsHorizontal, pymod, pyround, roundHalfEven,
       PERFORMER_WIDTH, PERFORMER_HALF_WIDTH, abs_of_pos])⟩

/-- C9 counterexample: two parallel walls both rotated 45 degrees, whose
centers are only 0.2 apart (so the gap between their facing surfaces is
below one performer width) and whose lateral extents coincide, are skipped
by `is_wall_too_close` entirely — lines 4958-4959 return early for any new
wall with `rotation % 90 != 0` — so `is_valid` accepts the new wall and the
claim, which quantifies over every parallel wall, is false. -/
theorem wall_too_close_counterexample :
    (⟨0, 0, 45, 2, 0.1⟩ : WallObj).rotY = (⟨0, 0.2, 45, 2, 0.1⟩ : WallObj).rotY ∧
    |(0 : ℚ) - 0.2| - 0.1 / 2 - 0.1 / 2 < PERFORMER_WIDTH ∧
    |(0 : ℚ) - 0| - 2 / 2 - 2 / 2 ≤ 0 ∧
    pymod (pyround 45 2) 90 ≠ 0 ∧
    isWallTooClose ⟨0, 0, 45, 2, 0.1⟩ [⟨0, 0.2, 45, 2, 0.1⟩] = false ∧
    wallIsValid ⟨0, 0, 45, 2, 0.1⟩ [⟨0, 0.2, 45, 2, 0.1⟩] true = true := by
  refine ⟨rfl, ?_, ?_, ?_, ?_, ?_⟩
  · norm_num [PERFORMER_WIDTH, PERFORMER_HALF_WIDTH, abs_of_pos]
  · norm_num
  · norm_num [pymod, pyround, roundHalfEven]
  · norm_num [isWallTooClose, wallIsAxisAligned, pymod, pyround,
      roundHalfEven]
  · norm_num [wallIsValid, isWallTooClose, wallIsAxisAligned, pymod,
      pyround, roundHalfEven]

/-- C7 (amended): when none of the requested labels has any object in the
repository, `_get_existing_held_object_idl` raises the delay exception
exactly when `existing_object_required` is set or the labels are exactly the
target label; otherwise it returns `None`, and the placer then silently
creates a new object carrying the labels (unless it is an empty placer). -/
theorem placer_missing_label_outcomes (repo : HeldRepo) (labels : List String)
    (placeOrPickup existingObjectRequired : Bool)
    (hmissing : ∀ l ∈ labels, repo.lookup l = none) :
    (existingObjectRequired = true ∨ labels = [TARGET_LABEL] →
      getExistingHeldObjectIdl repo labels placeOrPickup
        existingObjectRequired = .delayError 0) ∧
    (existingObjectRequired = false → labels ≠ [TARGET_LABEL] →
      getExistingHeldObjectIdl repo labels placeOrPickup
        existingObjectRequired = .notFound ∧
      placerCreatesNewObject
        (getExistingHeldObjectIdl repo labels placeOrPickup
          existingObjectRequired) false = true ∧
      placerCreatesNewObject
        (getExistingHeldObjectIdl repo labels placeOrPickup
          existingObjectRequired) true = false) := by
  have hs := heldSearch_all_missing repo placeOrPickup labels 0 hmissing
  unfold getExistingHeldObjectIdl
  rw [hs]
  constructor
  · rintro (h | h) <;> simp [h]
  · intro h1 h2
    simp [h1, h2, placerCreatesNewObject]

/-- C7 witness: a repository without the requested label, with
`existing_object_required` set: a delay is raised. -/
theorem placer_missing_label_outcomes_witness :
    (∀ l ∈ (["ball"] : List String), ([] : HeldRepo).lookup l = none) ∧
    (true = true ∨ (["ball"] : List String) = [TARGET_LABEL] →
      getExistingHeldObjectIdl [] ["ball"] false true = .delayError 0) :=
  ⟨by decide,
   (placer_missing_label_outcomes [] ["ball"] false true (by decide)).1⟩

/-- C7 counterexample: with the default `existing_object_required = False`
and a non-target label absent from the repository, the lookup returns `None`
without raising the delay exception, and the placer silently creates a new
object for the label — the unconditional Delay outcome of the claim is
false. -/
theorem placer_missing_label_counterexample :
    getExistingHeldObjectIdl [] ["ball"] true false = .notFound ∧
    (∀ n, getExistingHeldObjectIdl [] ["ball"] true false ≠ .delayError n) ∧
    placerCreatesNewObject (getExistingHeldObjectIdl [] ["ball"] true false)
      false = true := by
  refine ⟨by decide, ?_, by decide⟩
  intro n h
  rw [show getExistingHeldObjectIdl [] ["ball"] true false =
    HeldResult.notFound from by decide] at h
  exact HeldResult.noConfusion h

/-- C5 (amended): with `long_with_two_ramps` exactly two ramps are attached,
one on each of the two opposite edges perpendicular to the platform
smaller horizontal scale axis — edges whose own edge length is the larger
of the two horizontal scale dimensions — and the edge candidate lists are
fixed singletons, independent of any shuffle. -/
theorem long_with_two_ramps_edges (sx sz : ℚ) (attached : ℕ)
    (shuffled1 shuffled2 : List (Fin 4)) :
    rampsToAdd attached true = 2 ∧
    ∃ e0 e1 : Fin 4,
      edgeChoices (some ((shortScales sx sz).getD 0 "")) shuffled1 = [e0] ∧
      edgeChoices (some ((shortScales sx sz).getD 1 "")) shuffled2 = [e1] ∧
      e1.val = (e0.val + 2) % 4 ∧
      edgeLength sx sz e0 = max sx sz ∧
      edgeLength sx sz e1 = max sx sz := by
  refine ⟨rfl, ?_⟩
  by_cases h : sx < sz
  · have hmax : max sx sz = sz := max_eq_right h.le
    exact ⟨0, 2, by simp [shortScales, h, edgeChoices],
      by simp [shortScales, h, edgeChoices], rfl,
      (show edgeLength sx sz 0 = sz from rfl).trans hmax.symm,
      (show edgeLength sx sz 2 = sz from rfl).trans hmax.symm⟩
  · have hmax : max sx sz = sx := max_eq_left (le_of_not_lt h)
    exact ⟨3, 1, by simp [shortScales, h, edgeChoices],
      by simp [shortScales, h, edgeChoices], rfl,
      (show edgeLength sx sz 3 = sx from rfl).trans hmax.symm,
      (show edgeLength sx sz 1 = sx from rfl).trans hmax.symm⟩

/-- C5 counterexample: for a platform with horizontal scales (1, 2) the
first chosen edge is edge 0 (the `-x` edge), whose edge length is 2 — the
larger horizontal dimension, not the smaller one named by the claim. -/
theorem long_with_two_ramps_edge_counterexample :
    shortScales 1 2 = ["x-", "x+"] ∧
    edgeChoices (some "x-") [0, 1, 2, 3] = [0] ∧
    edgeLength 1 2 0 = 2 ∧ min (1 : ℚ) 2 = 1 ∧ (2 : ℚ) ≠ 1 := by
  refine ⟨by norm_num [shortScales], by decide, by norm_num [edgeLength],
    by norm_num, by norm_num⟩

/-- C4: an under-platform placement (without `long_with_two_ramps`) keeps
the extent of the top platform inside the extent of the bottom platform in
each
horizontal dimension, and the bottom scale exceeds the top scale in each
dimension by a buffer of at least `max(top height + performer width,
2 * top height)` and at most `min(max room dimension - performer width -
min(top x scale, top z scale), top height + 5)`. -/
theorem under_platform_containment_and_buffer
    (topX topY topZ topPosX topPosZ maxRoomDim scaleX scaleZ posX posZ : ℚ)
    (hsx : topX + scaleMinBuffer topY ≤ scaleX ∧
      scaleX ≤ topX + scaleMaxBuffer topX topZ topY maxRoomDim)
    (hsz : topZ + scaleMinBuffer topY ≤ scaleZ ∧
      scaleZ ≤ topZ + scaleMaxBuffer topX topZ topY maxRoomDim)
    (hpx : (preRotateUnderPosRange topPosX topX scaleX).1 ≤ posX ∧
      posX ≤ (preRotateUnderPosRange topPosX topX scaleX).2)
    (hpz : (preRotateUnderPosRange topPosZ topZ scaleZ).1 ≤ posZ ∧
      posZ ≤ (preRotateUnderPosRange topPosZ topZ scaleZ).2) :
    (posX - scaleX * 0.5 ≤ topPosX - topX * 0.5 ∧
      topPosX + topX * 0.5 ≤ posX + scaleX * 0.5) ∧
    (posZ - scaleZ * 0.5 ≤ topPosZ - topZ * 0.5 ∧
      topPosZ + topZ * 0.5 ≤ posZ + scaleZ * 0.5) ∧
    (max (topY + PERFORMER_WIDTH) (topY * 2) ≤ scaleX - topX ∧
      scaleX - topX ≤ min (maxRoomDim - PERFORMER_WIDTH - min topX topZ)
        (topY + BOTTOM_PLATFORM_SCALE_BUFFER_MAX)) ∧
    (max (topY + PERFORMER_WIDTH) (topY * 2) ≤ scaleZ - topZ ∧
      scaleZ - topZ ≤ min (maxRoomDim - PERFORMER_WIDTH - min topX topZ)
        (topY + BOTTOM_PLATFORM_SCALE_BUFFER_MAX)) := by
  obtain ⟨hsx1, hsx2⟩ := hsx
  obtain ⟨hsz1, hsz2⟩ := hsz
  obtain ⟨hpx1, hpx2⟩ := hpx
  obtain ⟨hpz1, hpz2⟩ := hpz
  simp only [preRotateUnderPosRange] at hpx1 hpx2 hpz1 hpz2
  unfold scaleMinBuffer BOTTOM_PLATFORM_SCALE_BUFFER_MIN at hsx1 hsz1
  unfold scaleMaxBuffer at hsx2 hsz2
  exact ⟨⟨by linarith, by linarith⟩, ⟨by linarith, by linarith⟩,
    ⟨by linarith, by linarith⟩, ⟨by linarith, by linarith⟩⟩

/-- C4 witness. -/
theorem under_platform_containment_and_buffer_witness :
    ((1 : ℚ) + scaleMinBuffer 1 ≤ 3 ∧ (3 : ℚ) ≤ 1 + scaleMaxBuffer 1 1 1 20) ∧
    ((0 : ℚ) - 3 * 0.5 ≤ 0 - 1 * 0.5 ∧ (0 : ℚ) + 1 * 0.5 ≤ 0 + 3 * 0.5) :=
  ⟨by norm_num [scaleMinBuffer, scaleMaxBuffer, PERFORMER_WIDTH,
      PERFORMER_HALF_WIDTH, BOTTOM_PLATFORM_SCALE_BUFFER_MIN,
      BOTTOM_PLATFORM_SCALE_BUFFER_MAX],
   (under_platform_containment_and_buffer 1 1 1 0 0 20 3 3 0 0
      (by norm_num [scaleMinBuffer, scaleMaxBuffer, PERFORMER_WIDTH,
        PERFORMER_HALF_WIDTH, BOTTOM_PLATFORM_SCALE_BUFFER_MIN,
        BOTTOM_PLATFORM_SCALE_BUFFER_MAX])
      (by norm_num [scaleMinBuffer, scaleMaxBuffer, PERFORMER_WIDTH,
        PERFORMER_HALF_WIDTH, BOTTOM_PLATFORM_SCALE_BUFFER_MIN,
        BOTTOM_PLATFORM_SCALE_BUFFER_MAX])
      (by norm_num [preRotateUnderPosRange])
      (by norm_num [preRotateUnderPosRange])).1⟩

/-- C6: with neither the offscreen nor the behind modifier, if no catalog
entry has travel distance within relative-and-absolute tolerance 0.1 of
the required distance there is a configuration error carrying the required
distance and the sorted set of available distances; otherwise the force of
a matching entry is returned; with the offscreen modifier the match
condition weakens to catalog distance + 0.1 reaching the required
distance; the toss catalog serves height 1 and the base catalog any other
height. -/
theorem thrower_stop_position_resolution (offscreen : Bool) (required : ℚ)
    (moves : List MoveData) (choice : ℕ) (height : ℤ)
    (toss base : List MoveData) (hheight : height ≠ 1) :
    selectMoveList 1 toss base = toss ∧
    selectMoveList height toss base = base ∧
    ((∀ m ∈ moves, moveMatches offscreen required m = false) →
      useStopPositionForce offscreen false required moves choice =
        .configError required (sortedSet (allDistances moves)) ∧
      (sortedSet (allDistances moves)).Sorted (· ≤ ·) ∧
      (sortedSet (allDistances moves)).Nodup) ∧
    (validMoves offscreen required moves ≠ [] →
      ∃ m ∈ moves, moveMatches offscreen required m = true ∧
        useStopPositionForce offscreen false required moves choice =
          .force m.forceX m.forceY) ∧
    (∀ m, moveMatches true required m = true ↔
      required ≤ moveDistance m + 0.1) ∧
    (∀ m, moveMatches false required m = true ↔
      |moveDistance m - required| ≤
        max (0.1 * max |moveDistance m| |required|) 0.1) := by
  refine ⟨rfl, by simp [selectMoveList, hheight], ?_, ?_, ?_, ?_⟩
  · intro hnone
    have hnil : validMoves offscreen required moves = [] := by
      unfold validMoves
      exact List.filter_eq_nil_iff.mpr fun m hm => by simp [hnone m hm]
    refine ⟨?_, List.sorted_insertionSort _ _,
      (List.perm_insertionSort _ _).nodup_iff.mpr (List.nodup_dedup _)⟩
    unfold useStopPositionForce
    rw [hnil]
    rfl
  · intro hne
    set valid := validMoves offscreen required moves with hvalid
    have hlen : 0 < valid.length := List.length_pos.mpr hne
    have hlt : choice % valid.length < valid.length := Nat.mod_lt _ hlen
    refine ⟨valid.getD (choice % valid.length) default, ?_, ?_, ?_⟩
    · have hmem : valid.getD (choice % valid.length) default ∈ valid := by
        rw [List.getD_eq_getElem valid default hlt]
        exact List.getElem_mem hlt
      exact (List.mem_filter.mp (hvalid ▸ hmem)).1
    · have hmem : valid.getD (choice % valid.length) default ∈ valid := by
        rw [List.getD_eq_getElem valid default hlt]
        exact List.getElem_mem hlt
      exact (List.mem_filter.mp (hvalid ▸ hmem)).2
    · unfold useStopPositionForce
      rw [← hvalid]
      have hempty : valid.isEmpty = false := by
        simp [List.isEmpty_iff, hne]
      simp only [hempty, Bool.false_eq_true, if_false]
  · intro m
    simp [moveMatches]
  · intro m
    simp [moveMatches, pyIsClose]

/-- C6 witness: a single catalog entry of travel distance 2 cannot serve a
required distance of 10: the configuration error is raised with the sorted
available distances. -/
theorem thrower_stop_position_resolution_witness :
    (0 : ℤ) ≠ 1 ∧
    useStopPositionForce false false 10 [⟨[0, 2], 5, 0⟩] 0 =
      .configError 10 (sortedSet (allDistances [⟨[0, 2], 5, 0⟩])) :=
  ⟨by decide,
   ((thrower_stop_position_resolution false 10 [⟨[0, 2], 5, 0⟩] 0 0 [] []
      (by decide)).2.2.1
      (by
        intro m hm
        simp only [List.mem_singleton] at hm
        subst hm
        norm_num [moveMatches, pyIsClose, moveDistance])).1⟩

/-- C3: every gap recorded by `_get_lip_gap`, for a ramp position sampled
within the in-platform limits with positive dimensions, satisfies
`0 ≤ low < high ≤ 1`; and two ramps on the same edge whose pre-rotation
footprints do not overlap — the bounds validation (an external collaborator,
modelled from the spec) rejects any ramp overlapping a previous one — record
gap intervals that do not overlap. -/
theorem lip_gap_bounds_and_disjoint (edge : Fin 4)
    (psx psz ppx ppz relx1 relz1 rsx1 rsz1 relx2 relz2 rsx2 rsz2 : ℚ)
    (hpsx : 0 < psx) (hpsz : 0 < psz)
    (hw1 : 0 < rsx1) (hw2 : 0 < rsx2) (hl1 : 0 < rsz1) (hl2 : 0 < rsz2)
    (hx1 : nonRotXMin psx rsx1 rsz1 edge ≤ relx1 ∧
      relx1 ≤ nonRotXMax psx rsx1 rsz1 edge)
    (hz1 : nonRotZMin psz rsx1 rsz1 edge ≤ relz1 ∧
      relz1 ≤ nonRotZMax psz rsx1 rsz1 edge)
    (hx2 : nonRotXMin psx rsx2 rsz2 edge ≤ relx2 ∧
      relx2 ≤ nonRotXMax psx rsx2 rsz2 edge)
    (hz2 : nonRotZMin psz rsx2 rsz2 edge ≤ relz2 ∧
      relz2 ≤ nonRotZMax psz rsx2 rsz2 edge)
    (hdisj : ¬ footprintsOverlap edge relx1 relz1 rsx1 rsz1
      relx2 relz2 rsx2 rsz2) :
    (0 ≤ (attachedRampGap edge relx1 relz1 rsx1 ppx ppz psx psz).low ∧
      (attachedRampGap edge relx1 relz1 rsx1 ppx ppz psx psz).low <
        (attachedRampGap edge relx1 relz1 rsx1 ppx ppz psx psz).high ∧
      (attachedRampGap edge relx1 relz1 rsx1 ppx ppz psx psz).high ≤ 1) ∧
    ¬ gapsOverlap (attachedRampGap edge relx1 relz1 rsx1 ppx ppz psx psz)
      (attachedRampGap edge relx2 relz2 rsx2 ppx ppz psx psz) := by
  fin_cases edge
  · -- edge 0: the -x (left) edge; the gap comes from the z coordinate and
    -- is direction-flipped; the x spans of any two ramps here always meet.
    simp only [nonRotXMin, nonRotXMax, nonRotZMin, nonRotZMax,
      xLimitOut, zLimitIn] at hx1 hz1 hx2 hz2
    replace hdisj : ¬(((relx2 - rsz2 * 0.5 < relx1 + rsz1 * 0.5) ∧
        (relx1 - rsz1 * 0.5 < relx2 + rsz2 * 0.5)) ∧
        ((relz2 - rsx2 * 0.5 < relz1 + rsx1 * 0.5) ∧
        (relz1 - rsx1 * 0.5 < relz2 + rsx2 * 0.5))) := hdisj
    show (0 ≤ 1 - (relz1 + rsx1 * 0.5 + psz * 0.5) / psz ∧
        1 - (relz1 + rsx1 * 0.5 + psz * 0.5) / psz <
          1 - (relz1 - rsx1 * 0.5 + psz * 0.5) / psz ∧
        1 - (relz1 - rsx1 * 0.5 + psz * 0.5) / psz ≤ 1) ∧
      ¬ ((1 - (relz2 + rsx2 * 0.5 + psz * 0.5) / psz <
          1 - (relz1 - rsx1 * 0.5 + psz * 0.5) / psz) ∧
        (1 - (relz1 + rsx1 * 0.5 + psz * 0.5) / psz <
          1 - (relz2 - rsx2 * 0.5 + psz * 0.5) / psz))
    have hb := gap_frac_bounds relz1 rsx1 psz hpsz hw1 hz1.1 hz1.2
    refine ⟨⟨by linarith [hb.2.2], by linarith [hb.2.1], by linarith [hb.1]⟩,
      ?_⟩
    rintro ⟨ho1, ho2⟩
    apply hdisj
    have hza : (relz1 - rsx1 * 0.5 + psz * 0.5) / psz <
        (relz2 + rsx2 * 0.5 + psz * 0.5) / psz := by linarith
    have hzb : (relz2 - rsx2 * 0.5 + psz * 0.5) / psz <
        (relz1 + rsx1 * 0.5 + psz * 0.5) / psz := by linarith
    rw [div_lt_div_right hpsz] at hza hzb
    exact ⟨⟨by linarith [hx1.1, hx1.2, hx2.1, hx2.2],
      by linarith [hx1.1, hx1.2, hx2.1, hx2.2]⟩, by linarith, by linarith⟩
  · -- edge 1: the -z (back) edge; the gap comes from the x coordinate and
    -- is not flipped; the z spans of any two ramps here always meet.
    simp only [nonRotXMin, nonRotXMax, nonRotZMin, nonRotZMax,
      xLimitIn, zLimitOut] at hx1 hz1 hx2 hz2
    replace hdisj : ¬(((relx2 - rsx2 * 0.5 < relx1 + rsx1 * 0.5) ∧
        (relx1 - rsx1 * 0.5 < relx2 + rsx2 * 0.5)) ∧
        ((relz2 - rsz2 * 0.5 < relz1 + rsz1 * 0.5) ∧
        (relz1 - rsz1 * 0.5 < relz2 + rsz2 * 0.5))) := hdisj
    show (0 ≤ (relx1 - rsx1 * 0.5 + psx * 0.5) / psx ∧
        (relx1 - rsx1 * 0.5 + psx * 0.5) / psx <
          (relx1 + rsx1 * 0.5 + psx * 0.5) / psx ∧
        (relx1 + rsx1 * 0.5 + psx * 0.5) / psx ≤ 1) ∧
      ¬ (((relx2 - rsx2 * 0.5 + psx * 0.5) / psx <
          (relx1 + rsx1 * 0.5 + psx * 0.5) / psx) ∧
        ((relx1 - rsx1 * 0.5 + psx * 0.5) / psx <
          (relx2 + rsx2 * 0.5 + psx * 0.5) / psx))
    have hb := gap_frac_bounds relx1 rsx1 psx hpsx hw1 hx1.1 hx1.2
    refine ⟨⟨hb.1, hb.2.1, hb.2.2⟩, ?_⟩
    rintro ⟨ho1, ho2⟩
    rw [div_lt_div_right hpsx] at ho1 ho2
    apply hdisj
    exact ⟨⟨by linarith, by linarith⟩,
      by linarith [hz1.1, hz1.2, hz2.1, hz2.2],
      by linarith [hz1.1, hz1.2, hz2.1, hz2.2]⟩
  · -- edge 2: the +x (right) edge; like edge 0.
    simp only [nonRotXMin, nonRotXMax, nonRotZMin, nonRotZMax,
      xLimitOut, zLimitIn] at hx1 hz1 hx2 hz2
    replace hdisj : ¬(((relx2 - rsz2 * 0.5 < relx1 + rsz1 * 0.5) ∧
        (relx1 - rsz1 * 0.5 < relx2 + rsz2 * 0.5)) ∧
        ((relz2 - rsx2 * 0.5 < relz1 + rsx1 * 0.5) ∧
        (relz1 - rsx1 * 0.5 < relz2 + rsx2 * 0.5))) := hdisj
    show (0 ≤ 1 - (relz1 + rsx1 * 0.5 + psz * 0.5) / psz ∧
        1 - (relz1 + rsx1 * 0.5 + psz * 0.5) / psz <
          1 - (relz1 - rsx1 * 0.5 + psz * 0.5) / psz ∧
        1 - (relz1 - rsx1 * 0.5 + psz * 0.5) / psz ≤ 1) ∧
      ¬ ((1 - (relz2 + rsx2 * 0.5 + psz * 0.5) / psz <
          1 - (relz1 - rsx1 * 0.5 + psz * 0.5) / psz) ∧
        (1 - (relz1 + rsx1 * 0.5 + psz * 0.5) / psz <
          1 - (relz2 - rsx2 * 0.5 + psz * 0.5) / psz))
    have hb := gap_frac_bounds relz1 rsx1 psz hpsz hw1 hz1.1 hz1.2
    refine ⟨⟨by linarith [hb.2.2], by linarith [hb.2.1], by linarith [hb.1]⟩,
      ?_⟩
    rintro ⟨ho1, ho2⟩
    apply hdisj
    have hza : (relz1 - rsx1 * 0.5 + psz * 0.5) / psz <
        (relz2 + rsx2 * 0.5 + psz * 0.5) / psz := by linarith
    have hzb : (relz2 - rsx2 * 0.5 + psz * 0.5) / psz <
        (relz1 + rsx1 * 0.5 + psz * 0.5) / psz := by linarith
    rw [div_lt_div_right hpsz] at hza hzb
    exact ⟨⟨by linarith [hx1.1, hx1.2, hx2.1, hx2.2],
      by linarith [hx1.1, hx1.2, hx2.1, hx2.2]⟩, by linarith, by linarith⟩
  · -- edge 3: the +z (front) edge; like edge 1.
    simp only [nonRotXMin, nonRotXMax, nonRotZMin, nonRotZMax,
      xLimitIn, zLimitOut] at hx1 hz1 hx2 hz2
    replace hdisj : ¬(((relx2 - rsx2 * 0.5 < relx1 + rsx1 * 0.5) ∧
        (relx1 - rsx1 * 0.5 < relx2 + rsx2 * 0.5)) ∧
        ((relz2 - rsz2 * 0.5 < relz1 + rsz1 * 0.5) ∧
        (relz1 - rsz1 * 0.5 < relz2 + rsz2 * 0.5))) := hdisj
    show (0 ≤ (relx1 - rsx1 * 0.5 + psx * 0.5) / psx ∧
        (relx1 - rsx1 * 0.5 + psx * 0.5) / psx <
          (relx1 + rsx1 * 0.5 + psx * 0.5) / psx ∧
        (relx1 + rsx1 * 0.5 + psx * 0.5) / psx ≤ 1) ∧
      ¬ (((relx2 - rsx2 * 0.5 + psx * 0.5) / psx <
          (relx1 + rsx1 * 0.5 + psx * 0.5) / psx) ∧
        ((relx1 - rsx1 * 0.5 + psx * 0.5) / psx <
          (relx2 + rsx2 * 0.5 + psx * 0.5) / psx))
    have hb := gap_frac_bounds relx1 rsx1 psx hpsx hw1 hx1.1 hx1.2
    refine ⟨⟨hb.1, hb.2.1, hb.2.2⟩, ?_⟩
    rintro ⟨ho1, ho2⟩
    rw [div_lt_div_right hpsx] at ho1 ho2
    apply hdisj
    exact ⟨⟨by linarith, by linarith⟩,
      by linarith [hz1.1, hz1.2, hz2.1, hz2.2],
      by linarith [hz1.1, hz1.2, hz2.1, hz2.2]⟩
theorem pymod_add_right (a b : ℚ) (hb : b ≠ 0) :
    pymod (a + b) b = pymod a b := by
  unfold pymod
  have h : (a + b) / b = a / b + 1 := by field_simp
  rw [h, Int.floor_add_one]
  push_cast
  ring

theorem roundHalfEven_ge_floor (x : ℚ) : ⌊x⌋ ≤ roundHalfEven x := by
  unfold roundHalfEven
  show ⌊x⌋ ≤ if x - (⌊x⌋ : ℚ) < 1/2 then ⌊x⌋
    else if 1/2 < x - (⌊x⌋ : ℚ) then ⌊x⌋ + 1
    else if ⌊x⌋ % 2 = 0 then ⌊x⌋ else ⌊x⌋ + 1
  split
  · exact le_rfl
  · split
    · exact le_of_lt (lt_add_one _)
    · split
      · exact le_rfl
      · exact le_of_lt (lt_add_one _)

theorem deg_arctan_le_of_le_one {t : ℝ} (h : t ≤ 1) :
    180 / Real.pi * Real.arctan t ≤ 45 := by
  have hπ : (0 : ℝ) < Real.pi := Real.pi_pos
  have h1 : Real.arctan t ≤ Real.arctan 1 :=
    Real.arctan_strictMono.monotone h
  rw [Real.arctan_one] at h1
  calc 180 / Real.pi * Real.arctan t
      ≤ 180 / Real.pi * (Real.pi / 4) :=
        mul_le_mul_of_nonneg_left h1 (by positivity)
    _ = 45 := by field_simp; ring

/-- The tangent-level angle test used inside `edgeValid45` agrees with the
arctan-in-degrees test the source performs: for a positive candidate length
`L`, `degrees(atan(psy / L)) ≤ 45 ∧ degrees(atan(psy / L)) ≥ 0` holds
exactly when `psy ≤ L ∧ 0 ≤ psy`. -/
theorem angle_needed_le_iff (psy L : ℚ) (hL : 0 < L) :
    (180 / Real.pi * Real.arctan ((psy : ℝ) / ((L : ℚ) : ℝ)) ≤ 45 ∧
      0 ≤ 180 / Real.pi * Real.arctan ((psy : ℝ) / ((L : ℚ) : ℝ))) ↔
    (psy ≤ L ∧ 0 ≤ psy) := by
  have hπ : (0 : ℝ) < Real.pi := Real.pi_pos
  have hc : (0 : ℝ) < 180 / Real.pi := by positivity
  have hL0 : (0 : ℝ) < ((L : ℚ) : ℝ) := by exact_mod_cast hL
  have h45 : (45 : ℝ) = 180 / Real.pi * (Real.pi / 4) := by
    have hπ0 : Real.pi ≠ 0 := Real.pi_ne_zero
    field_simp
    ring
  constructor
  · rintro ⟨h1, h2⟩
    rw [h45] at h1
    have ha1 : Real.arctan ((psy : ℝ) / ((L : ℚ) : ℝ)) ≤ Real.pi / 4 :=
      le_of_mul_le_mul_left h1 hc
    rw [← Real.arctan_one] at ha1
    have ht1 : (psy : ℝ) / ((L : ℚ) : ℝ) ≤ 1 :=
      Real.arctan_strictMono.le_iff_le.mp ha1
    rw [show (0 : ℝ) = 180 / Real.pi * 0 from by ring] at h2
    have ha2 : (0 : ℝ) ≤ Real.arctan ((psy : ℝ) / ((L : ℚ) : ℝ)) :=
      le_of_mul_le_mul_left h2 hc
    rw [← Real.arctan_zero] at ha2
    have ht2 : (0 : ℝ) ≤ (psy : ℝ) / ((L : ℚ) : ℝ) :=
      Real.arctan_strictMono.le_iff_le.mp ha2
    rw [div_le_one hL0] at ht1
    constructor
    · exact_mod_cast ht1
    · have := (div_nonneg_iff.mp ht2).resolve_right
        (fun h => absurd h.2 (not_le.mpr hL0))
      exact_mod_cast this.1
  · rintro ⟨h1, h2⟩
    refine ⟨deg_arctan_le_of_le_one ?_, ?_⟩
    · rw [div_le_one hL0]
      exact_mod_cast h1
    · have ht : (0 : ℝ) ≤ (psy : ℝ) / ((L : ℚ) : ℝ) :=
        div_nonneg (by exact_mod_cast h2) hL0.le
      have : (0 : ℝ) ≤ Real.arctan ((psy : ℝ) / ((L : ℚ) : ℝ)) := by
        rw [← Real.arctan_zero]
        exact Real.arctan_strictMono.le_iff_le.mpr ht
      positivity

theorem deg_arctan_mono {a b : ℝ} (h : a ≤ b) :
    180 / Real.pi * Real.arctan a ≤ 180 / Real.pi * Real.arctan b :=
  mul_le_mul_of_nonneg_left (Real.arctan_strictMono.monotone h)
    (by positivity)

/-- C2 (amended): the final ramp position is the standard 2-D
rotation-about-a-point transform in the x coordinate, but its z coordinate
is the reflection about the rotation point of the z of the standard
transform
(`z1 = 2 zc - z_standard`, that is
`z1 = -(x0 - xc) sin θ - (z0 - zc) cos θ + zc`); the assigned rotation is
the platform rotation plus a per-edge offset of 0, 90, 180 or 270 degrees
taken modulo 360. -/
theorem ramp_transform_and_rotation (x0 z0 xc zc θ : ℝ) (rotationY : ℚ)
    (edge : Fin 4) :
    rampRotatedPos x0 z0 xc zc (Real.cos θ) (Real.sin θ) =
      ((specStandardRotatedPos x0 z0 xc zc (Real.cos θ) (Real.sin θ)).1,
        2 * zc -
          (specStandardRotatedPos x0 z0 xc zc (Real.cos θ) (Real.sin θ)).2) ∧
    ∃ off : ℚ, (off = 0 ∨ off = 90 ∨ off = 180 ∨ off = 270) ∧
      rampAssignedRotation rotationY edge = pymod (rotationY + off) 360 := by
  constructor
  · simp only [rampRotatedPos, specStandardRotatedPos, Prod.mk.injEq]
    constructor <;> ring
  · fin_cases edge
    · exact ⟨90, by norm_num, rfl⟩
    · exact ⟨180, by norm_num, rfl⟩
    · refine ⟨270, by norm_num, ?_⟩
      show pymod (rotationY + RAMP_ROTATIONS 2) 360 =
        pymod (rotationY + 270) 360
      rw [show rotationY + (270 : ℚ) =
        (rotationY + RAMP_ROTATIONS 2) + 360 from by
          simp only [RAMP_ROTATIONS]; ring]
      exact (pymod_add_right _ _ (by norm_num)).symm
    · exact ⟨0, by norm_num, rfl⟩

/-- C2 counterexample: at platform rotation 0 with rotation point (0, 0),
the code sends the pre-rotation position (0, 1) to (0, -1), not to the
(0, 1) demanded by the standard rotation transform the claim states. -/
theorem ramp_transform_counterexample :
    rampRotatedPos (0 : ℝ) 1 0 0 (Real.cos 0) (Real.sin 0) ≠
      specStandardRotatedPos (0 : ℝ) 1 0 0 (Real.cos 0) (Real.sin 0) := by
  norm_num [rampRotatedPos, specStandardRotatedPos, Prod.ext_iff,
    Real.cos_zero, Real.sin_zero]

/-- C1 (amended): for a ramp attached through an accepted edge with sampled
width and length, the length is at least the minimum ramp length and at most
the available run of the edge minus the performer buffer capped at 3; the
edge is
accepted only if the run exceeds the minimum ramp length, the angle needed
at the maximum length is at most 45 degrees, and a feasible width exists;
and the incline angle of the ramp, `atan(psy / length)`, is at most
`max 45 (atan(psy / round(psy, 4)))` in degrees — it can exceed the
configured 45 only through the 4-decimal rounding of the minimum ramp
length. -/
theorem attached_ramp_length_and_angle (psx psy psz available : ℚ)
    (edge : Fin 4) (rsx rsz : ℚ)
    (hvalid : edgeValid45 psx psy psz available edge = true)
    (hlen : minRampLength45 psy ≤ rsz ∧ rsz ≤ maxRampLength available)
    (hwid : ATTACHED_RAMP_MIN_WIDTH ≤ rsx ∧
      rsx ≤ rampWidthMax psx psz edge) :
    (ATTACHED_RAMP_MIN_LENGTH ≤ rsz ∧
      rsz ≤ min (available - performer_buffer) ATTACHED_RAMP_MAX_LENGTH) ∧
    (minRampLength45 psy < available ∧
      180 / Real.pi * Real.arctan ((psy : ℝ) / (maxRampLength available : ℚ))
        ≤ 45 ∧
      ∃ w : ℚ, ATTACHED_RAMP_MIN_WIDTH ≤ w ∧ w ≤ edgeLength psx psz edge ∧
        w ≤ ATTACHED_RAMP_MAX_WIDTH) ∧
    180 / Real.pi * Real.arctan ((psy : ℝ) / (rsz : ℚ)) ≤
      max 45 (180 / Real.pi * Real.arctan ((psy : ℝ) / (pyround psy 4 : ℚ)))
    := by
  simp only [edgeValid45, decide_eq_true_eq] at hvalid
  obtain ⟨hmaxpos, ⟨hangle1, hangle2⟩, hminmax, hwidth⟩ := hvalid
  have hbuf : 0 < performer_buffer := by
    norm_num [performer_buffer, PERFORMER_HALF_WIDTH]
  have hrszpos : 0 < rsz := by
    have h05 : ATTACHED_RAMP_MIN_LENGTH ≤ minRampLength45 psy :=
      le_max_right _ _
    have : (0 : ℚ) < ATTACHED_RAMP_MIN_LENGTH := by
      norm_num [ATTACHED_RAMP_MIN_LENGTH]
    linarith [hlen.1]
  refine ⟨⟨le_trans (le_max_right _ _) hlen.1, hlen.2⟩, ⟨?_, ?_, ?_⟩, ?_⟩
  · have h1 : maxRampLength available ≤ available - performer_buffer :=
      min_le_left _ _
    linarith
  · apply deg_arctan_le_of_le_one
    rw [div_le_one (by exact_mod_cast hmaxpos)]
    exact_mod_cast hangle1
  · exact ⟨rampWidthMax psx psz edge, hwidth, min_le_right _ _,
      min_le_left _ _⟩
  · by_cases hc : psy ≤ rsz
    · refine le_trans (deg_arctan_le_of_le_one ?_) (le_max_left _ _)
      rw [div_le_one (by exact_mod_cast hrszpos)]
      exact_mod_cast hc
    · -- here rsz < psy, so the rounded minimum length is at least 1/2 and
      -- bounds rsz from below.
      push_neg at hc
      have hround : pyround psy 4 ≤ rsz :=
        le_trans (le_max_left _ _) hlen.1
      have hrsz05 : (1/2 : ℚ) ≤ rsz := by
        have h05 : ATTACHED_RAMP_MIN_LENGTH ≤ rsz :=
          le_trans (le_max_right _ _) hlen.1
        have he : ATTACHED_RAMP_MIN_LENGTH = (1/2 : ℚ) := by
          norm_num [ATTACHED_RAMP_MIN_LENGTH]
        linarith [he ▸ h05]
      have hpsy05 : (1/2 : ℚ) < psy := lt_of_le_of_lt hrsz05 hc
      have hroundpos : (0 : ℚ) < pyround psy 4 := by
        have hfl : (5000 : ℤ) ≤ ⌊psy * 10 ^ 4⌋ := by
          rw [Int.le_floor]
          push_cast
          linarith
        have hfl2 : (5000 : ℤ) ≤ roundHalfEven (psy * 10 ^ 4) :=
          le_trans hfl (roundHalfEven_ge_floor _)
        unfold pyround
        have : (5000 : ℚ) ≤ (roundHalfEven (psy * 10 ^ 4) : ℚ) := by
          exact_mod_cast hfl2
        positivity
      refine le_trans (deg_arctan_mono ?_) (le_max_right _ _)
      have h1 : ((psy : ℝ)) / (rsz : ℚ) ≤ (psy : ℝ) / (pyround psy 4 : ℚ) :=
        by
          apply div_le_div_of_nonneg_left
          · exact_mod_cast le_of_lt (lt_trans (by norm_num) hpsy05)
          · exact_mod_cast hroundpos
          · exact_mod_cast hround
      exact h1

/-- C1 counterexample: with platform height 1.00004 the minimum ramp length
`round(1.00004 / tan(45°), 4)` rounds down to 1, edge 3 of a 2 by 2
platform with available run 10 is accepted, the length sample 1 and width
sample 1/2 are within the sampled ranges, yet the resulting incline angle
`atan(1.00004 / 1)` exceeds 45 degrees — the unconditional claim
`angle ≤ max_angle` is false. -/
theorem attached_ramp_angle_counterexample :
    edgeValid45 2 (25001/25000) 2 10 3 = true ∧
    minRampLength45 (25001/25000) ≤ 1 ∧ (1 : ℚ) ≤ maxRampLength 10 ∧
    ATTACHED_RAMP_MIN_WIDTH ≤ (1/2 : ℚ) ∧ (1/2 : ℚ) ≤ rampWidthMax 2 2 3 ∧
    45 < 180 / Real.pi *
      Real.arctan (((25001/25000 : ℚ) : ℝ) / ((1 : ℚ) : ℝ)) := by
  refine ⟨?_, ?_, ?_, ?_, ?_, ?_⟩
  · norm_num [edgeValid45, maxRampLength, performer_buffer,
      PERFORMER_HALF_WIDTH, minRampLength45, pyround, roundHalfEven,
      rampWidthMax, ATTACHED_RAMP_MIN_WIDTH, ATTACHED_RAMP_MAX_WIDTH,
      ATTACHED_RAMP_MAX_LENGTH, ATTACHED_RAMP_MIN_LENGTH]
  · norm_num [minRampLength45, pyround, roundHalfEven,
      ATTACHED_RAMP_MIN_LENGTH]
  · norm_num [maxRampLength, performer_buffer, PERFORMER_HALF_WIDTH,
      ATTACHED_RAMP_MAX_LENGTH]
  · norm_num [ATTACHED_RAMP_MIN_WIDTH]
  · norm_num [rampWidthMax, ATTACHED_RAMP_MAX_WIDTH]
  · have hcast : (((25001/25000 : ℚ) : ℝ) / ((1 : ℚ) : ℝ)) =
        (25001 : ℝ) / 25000 := by
      push_cast
      norm_num
    rw [hcast]
    have h1 : Real.arctan 1 < Real.arctan ((25001 : ℝ) / 25000) :=
      Real.arctan_strictMono (by norm_num)
    rw [Real.arctan_one] at h1
    have hπ : (0 : ℝ) < Real.pi := Real.pi_pos
    calc (45 : ℝ) = 180 / Real.pi * (Real.pi / 4) := by field_simp; ring
      _ < 180 / Real.pi * Real.arctan ((25001 : ℝ) / 25000) :=
          mul_lt_mul_of_pos_left h1 (by positivity)

/-- C1 witness. -/
theorem attached_ramp_length_and_angle_witness :
    edgeValid45 2 1 2 10 3 = true ∧
    (ATTACHED_RAMP_MIN_LENGTH ≤ (2 : ℚ) ∧
      (2 : ℚ) ≤ min ((10 : ℚ) - performer_buffer) ATTACHED_RAMP_MAX_LENGTH) :=
  ⟨by norm_num [edgeValid45, maxRampLength, performer_buffer,
      PERFORMER_HALF_WIDTH, minRampLength45, pyround, roundHalfEven,
      rampWidthMax, ATTACHED_RAMP_MIN_WIDTH, ATTACHED_RAMP_MAX_WIDTH,
      ATTACHED_RAMP_MAX_LENGTH, ATTACHED_RAMP_MIN_LENGTH],
   (attached_ramp_length_and_angle 2 1 2 10 3 1 2
      (by norm_num [edgeValid45, maxRampLength, performer_buffer,
        PERFORMER_HALF_WIDTH, minRampLength45, pyround, roundHalfEven,
        rampWidthMax, ATTACHED_RAMP_MIN_WIDTH, ATTACHED_RAMP_MAX_WIDTH,
        ATTACHED_RAMP_MAX_LENGTH, ATTACHED_RAMP_MIN_LENGTH])
      (by norm_num [minRampLength45, pyround, roundHalfEven, maxRampLength,
        performer_buffer, PERFORMER_HALF_WIDTH, ATTACHED_RAMP_MAX_LENGTH,
        ATTACHED_RAMP_MIN_LENGTH])
      (by norm_num [rampWidthMax, ATTACHED_RAMP_MIN_WIDTH,
        ATTACHED_RAMP_MAX_WIDTH])).1⟩

/-- C3 witness: two ramps on the front edge of a 2 by 2 platform whose
footprints are apart record non-overlapping gaps within [0, 1]. -/
theorem lip_gap_bounds_and_disjoint_witness :
    (0 : ℚ) < 2 ∧
    ¬ gapsOverlap (attachedRampGap 3 (-0.5) 1.5 0.5 0 0 2 2)
      (attachedRampGap 3 0.5 1.5 0.5 0 0 2 2) :=
  ⟨by norm_num,
   (lip_gap_bounds_and_disjoint 3 2 2 0 0 (-0.5) 1.5 0.5 1 0.5 1.5 0.5 1
      (by norm_num) (by norm_num) (by norm_num) (by norm_num) (by norm_num)
      (by norm_num)
      (by norm_num [nonRotXMin, nonRotXMax, xLimitIn])
      (by norm_num [nonRotZMin, nonRotZMax, zLimitOut])
      (by norm_num [nonRotXMin, nonRotXMax, xLimitIn])
      (by norm_num [nonRotZMin, nonRotZMax, zLimitOut])
      (by
        intro h
        have h1 : (0.5 : ℚ) - 0.5 * 0.5 < -0.5 + 0.5 * 0.5 := h.1.1
        norm_num at h1)).2⟩

end MCS
